import Mathlib

/-!
Verification of the SRT-to-speech bot (src/bot.py) against its specification.

The Python source is shallowly embedded below.  Python string primitives
(str.split, str.strip, substring containment, ...) are modelled by structurally
recursive functions over `List Char` so that every definition evaluates inside
the kernel; each such helper documents the Python primitive it stands for.
`srt_to_clean_text` delegates its parsing to the external `pysrt` library
(pysrt.open with its default lenient error handling `ERROR_PASS`), whose cue
parser is embedded here as well, following pysrt's published implementation
(SubRipFile.stream / SubRipItem.from_lines / SubRipItem.split_timestamps /
SubRipTime.from_string).
-/

/-! ## Python string primitives, over `List Char` -/

/-- Python whitespace test for `str.strip` and friends (ASCII fragment,
which covers every input considered here). -/
def pyWs (c : Char) : Bool :=
  c == ' ' || c == '\t' || c == '\n' || c == '\r'

/-- Python `str.lstrip()`. -/
def pyLstrip (l : List Char) : List Char :=
  l.dropWhile pyWs

/-- Python `str.rstrip()`. -/
def pyRstrip (l : List Char) : List Char :=
  (l.reverse.dropWhile pyWs).reverse

/-- Python `str.strip()`. -/
def pyStrip (l : List Char) : List Char :=
  pyRstrip (pyLstrip l)

/-- Split on every character satisfying `p`; worker of `pySplitChar`.
`acc` holds the current (reversed) piece. -/
def splitCharAux (p : Char → Bool) (acc : List Char) : List Char → List (List Char)
  | [] => [acc.reverse]
  | c :: rest =>
    if p c then acc.reverse :: splitCharAux p [] rest
    else splitCharAux p (c :: acc) rest

/-- Python `str.split(sep)` for a one-character separator class
(also models `re.split` on a single-character alternation). -/
def pySplitChar (p : Char → Bool) (l : List Char) : List (List Char) :=
  splitCharAux p [] l

/-- Does `pat` occur as a contiguous substring?  Python `pat in s`. -/
def containsSub (pat : List Char) : List Char → Bool
  | [] => false
  | c :: rest => pat.isPrefixOf (c :: rest) || containsSub pat rest

/-- Worker for `pySplitSub`: left-to-right non-overlapping split on the
substring `pat`.  `skip` counts characters of an already-matched separator
still to be swallowed; `acc` holds the current (reversed) piece. -/
def splitSubAux (pat : List Char) : Nat → List Char → List Char → List (List Char)
  | _ + 1, acc, [] => [acc.reverse]
  | 0, acc, [] => [acc.reverse]
  | k + 1, acc, _ :: rest => splitSubAux pat k acc rest
  | 0, acc, c :: rest =>
    if pat.isPrefixOf (c :: rest) then
      acc.reverse :: splitSubAux pat (pat.length - 1) [] rest
    else splitSubAux pat 0 (c :: acc) rest

/-- Python `str.split(sep)` for a non-empty multi-character separator. -/
def pySplitSub (pat : List Char) (l : List Char) : List (List Char) :=
  splitSubAux pat 0 [] l

/-- Python `str.replace(a, b)` for one-character `a`, `b`. -/
def pyReplaceChar (a b : Char) (l : List Char) : List Char :=
  l.map (fun c => if c == a then b else c)

/-- Python `sep.join(pieces)`. -/
def pyJoin (sep : List Char) : List (List Char) → List Char
  | [] => []
  | [x] => x
  | x :: y :: rest => x ++ sep ++ pyJoin sep (y :: rest)

/-- Python `str.lower()` (ASCII). -/
def pyLower (l : List Char) : List Char :=
  l.map Char.toLower

/-! ## The pysrt cue parser, as used by `srt_to_clean_text`

`pysrt.open("temp.srt")` reads the file line by line; consecutive non-blank
lines form a candidate cue; each candidate is parsed by
`SubRipItem.from_lines`, and with the default `error_handling=ERROR_PASS` a
candidate that raises a pysrt `Error` is silently dropped. -/

/-- The cue separator `-->` (`SubRipItem.TIMESTAMP_SEPARATOR`). -/
def arrowPat : List Char := '-' :: '-' :: '>' :: []

/-- `SubRipTime.from_string` succeeds iff splitting on `:`/`.`/`,` yields
exactly four fields (`RE_TIME_SEP`); each field is then parsed leniently by
`parse_int`, which never fails. -/
def timeStringOK (l : List Char) : Bool :=
  (pySplitChar (fun c => c == ':' || c == '.' || c == ',') l).length == 4

/-- `SubRipItem.from_lines` followed by reading `sub.text`:
returns the cue's body text, or `none` when the item raises a pysrt `Error`
(fewer than two lines, no / more than one `-->` on the timestamp line, or a
malformed timestamp).  The index line, when present, is popped and kept
verbatim (a non-numeric index is tolerated by `SubRipItem.__init__`). -/
def parseChunk (ls : List (List Char)) : Option (List Char) :=
  if ls.length < 2 then none
  else
    let ls2 := ls.map pyRstrip
    match ls2 with
    | [] => none
    | l0 :: rest =>
      let tb : List Char × List (List Char) :=
        if containsSub arrowPat l0 then (l0, rest)
        else
          match rest with
          | [] => ([], [])
          | l1 :: rest2 => (l1, rest2)
      match pySplitSub arrowPat tb.1 with
      | [startRaw, endRaw] =>
        let endTok := (pySplitChar (fun c => c == ' ') (pyLstrip endRaw)).headD []
        if timeStringOK startRaw && timeStringOK endTok then
          some (pyJoin ('\n' :: []) tb.2)
        else none
      | _ => none

/-- `SubRipFile.stream`: group consecutive non-blank lines into candidate
cues; `acc` holds the current (reversed) group.  The trailing
`chain(source_file, '\n')` flushes the final group. -/
def chunksAux (acc : List (List Char)) : List (List Char) → List (List (List Char))
  | [] => if acc.isEmpty then [] else [acc.reverse]
  | l :: rest =>
    if pyStrip l == [] then
      if acc.isEmpty then chunksAux [] rest
      else acc.reverse :: chunksAux [] rest
    else chunksAux (l :: acc) rest

/-- The candidate cues of a file's line list. -/
def splitChunks (lines : List (List Char)) : List (List (List Char)) :=
  chunksAux [] lines

/-- The `sub.text` values produced by `pysrt.open` on the given content
(file lines are separated by newline). -/
def srtSubTexts (content : String) : List (List Char) :=
  (splitChunks (pySplitChar (fun c => c == '\n') content.data)).filterMap parseChunk

/-- The try-branch of `srt_to_clean_text`:
`" ".join([sub.text.replace('\n', ' ') for sub in subs])`. -/
def pysrtJoin (content : String) : String :=
  ⟨pyJoin (' ' :: []) ((srtSubTexts content).map (pyReplaceChar '\n' ' '))⟩

/-- `srt_to_clean_text` (src/bot.py:89-100).  The function writes its input
to `temp.srt`, parses it with `pysrt.open`, and joins the cue texts; any
exception escaping the try-block (an I/O-level failure — cue-level parse
failures are swallowed by pysrt's `ERROR_PASS`) degrades to
`srt_content.replace("\n", " ")`.  `ioOk` is the environment flag telling
whether the temp-file round trip succeeded. -/
def srt_to_clean_text (ioOk : Bool) (content : String) : String :=
  if ioOk then pysrtJoin content
  else ⟨pyReplaceChar '\n' ' ' content.data⟩

/-! ## Voice catalog (src/bot.py:28-66)

Display labels are carried without the flag emoji of the source; only the
keys, the name/voice-id association and the ordering matter to the logic. -/

/-- `VOICE_CATEGORIES`: category key, display label, display-name/voice-id
pairs, in source order. -/
def VOICE_CATEGORIES : List (String × String × List (String × String)) :=
  [("burmese", ("Burmese",
     [("Male (Thiha)", "my-MM-ThihaNeural"),
      ("Female (Nilar)", "my-MM-NilarNeural")])),
   ("japanese", ("Japanese",
     [("Female (Nanami)", "ja-JP-NanamiNeural"),
      ("Male (Keita)", "ja-JP-KeitaNeural")])),
   ("multilingual", ("Multilingual (Mixed)",
     [("Male (Andrew)", "en-US-AndrewMultilingualNeural"),
      ("Female (Ava)", "en-US-AvaMultilingualNeural"),
      ("Male (Brian)", "en-US-BrianMultilingualNeural"),
      ("Female (Emma)", "en-US-EmmaMultilingualNeural")])),
   ("english", ("English",
     [("Female (Aria)", "en-US-AriaNeural"),
      ("Male (Guy)", "en-US-GuyNeural"),
      ("Female (Sonia)", "en-GB-SoniaNeural"),
      ("Male (Ryan)", "en-GB-RyanNeural")]))]

/-- `ALL_VOICES_FLAT`: the flattened name/voice-id association (the source
builds it by successive `dict.update`; display names are pairwise distinct,
so plain concatenation is the same association). -/
def ALL_VOICES_FLAT : List (String × String) :=
  VOICE_CATEGORIES.foldl (fun acc c => acc ++ c.2.2) []

/-- `DEFAULT_VOICE` (src/bot.py:23). -/
def DEFAULT_VOICE : String := "en-US-AriaNeural"

/-- `VOICE_CATEGORIES[cat]` lookup; `none` models the `KeyError`. -/
def lookupCat (key : String) : Option (String × List (String × String)) :=
  (VOICE_CATEGORIES.find? (fun c => c.1 == key)).map (fun c => c.2)

/-! ## Per-user session state (`context.user_data`) -/

/-- The fields of `context.user_data` used by the bot: the text buffer
(`'buffer'`, absent modelled as `""` — the source initialises it to `""`
before every read), whether a flush job is currently scheduled (`'job'`),
and the sticky voice preference (`'voice'`). -/
structure UserData where
  buffer : String := ""
  job : Bool := false
  voice : Option String := none
deriving DecidableEq, Repr

/-- `get_user_voice` (src/bot.py:85-87). -/
def get_user_voice (s : UserData) : String :=
  s.voice.getD DEFAULT_VOICE

/-- `clear_buffer`, the `/clear` command handler (src/bot.py:121-123):
sets `user_data['buffer'] = ""` and replies "Text buffer cleared.".
It touches neither `'job'` nor `'voice'`. -/
def clear_buffer (s : UserData) : UserData × String :=
  ({ s with buffer := "" }, "Text buffer cleared.")

/-- Debounce delay of `handle_text_message`, in tenths of a second
(`2.0` seconds, src/bot.py:166). -/
def TEXT_DEBOUNCE_DS : Nat := 20

/-- Flush delay of `handle_file`, in tenths of a second
(`0.1` seconds, src/bot.py:228). -/
def FILE_FLUSH_DS : Nat := 1

/-- `handle_text_message` (src/bot.py:146-170): appends `text + "\n"` to the
buffer, cancels any previously scheduled flush job and schedules a new one
2.0 seconds out.  Returns the new session and the scheduled delay. -/
def handle_text_message (s : UserData) (text : String) : UserData × Nat :=
  ({ s with buffer := s.buffer ++ text ++ "\n", job := true }, TEXT_DEBOUNCE_DS)

/-- `handle_file` (src/bot.py:211-231): a non-`.srt` file name is rejected
with an error reply and the session untouched (`none` = no flush
scheduled); otherwise the downloaded content REPLACES the buffer
(`user_data['buffer'] = text_content`) and a flush is scheduled 0.1 seconds
out. -/
def handle_file (s : UserData) (fileName content : String) : UserData × Option Nat :=
  if ".srt".data.reverse.isPrefixOf (pyLower fileName.data).reverse then
    ({ s with buffer := content, job := true }, some FILE_FLUSH_DS)
  else (s, none)

/-- `process_buffered_text` (src/bot.py:172-209), the flush callback: on a
whitespace-only buffer it returns without sending anything; otherwise it
sends the confirmation prompt, here represented by its variable content —
the kind label (`"SRT"` iff the buffer contains `-->` and a newline, the
`is_srt` check of line 182) and the character count. -/
def process_buffered_text (buffer : String) : Option (String × Nat) :=
  if pyStrip buffer.data == [] then none
  else
    some ((if containsSub arrowPat buffer.data && containsSub ('\n' :: []) buffer.data
           then "SRT" else "Text"),
          buffer.data.length)

/-! ## Synthesis orchestrator (`run_generation`, src/bot.py:299-332)

The two external collaborators are represented by environment flags:
`synthOk` — the `edge_tts` call of `generate_audio` succeeds and produces
the artifact `downloads/<user_id>.mp3`; `sendOk` — `send_audio` delivers it.
A `False` flag raises at the corresponding call site, transferring control
to the `except` branch.  The try-block's temp-file round trip of
`srt_to_clean_text` is taken as succeeding (`ioOk = true`). -/

/-- Outcome of one `run_generation` call: the session buffer on return,
whether the artifact file is still on local storage, whether the audio was
delivered, and the user-visible messages in emission order. -/
structure GenResult where
  buffer : String
  fileOnDisk : Bool
  delivered : Bool
  messages : List String
deriving DecidableEq, Repr

/-- `run_generation` (src/bot.py:299-332).  On an empty buffer: an error
reply and nothing else.  Otherwise: the "Generating audio..." edit, the
normalisation, the synthesis call, the delivery, then — only on the success
path — `os.remove(output_file)` and the buffer auto-clear; any exception
skips straight to the error reply, with no cleanup. -/
def run_generation (buffer : String) (synthOk sendOk : Bool) : GenResult :=
  if buffer == "" then
    { buffer := buffer, fileOnDisk := false, delivered := false,
      messages := ["Text buffer is empty."] }
  else
    -- clean_text := srt_to_clean_text true buffer, fed to the synthesis call
    if synthOk then
      if sendOk then
        { buffer := "", fileOnDisk := false, delivered := true,
          messages := ["Generating audio...", "Generated successfully."] }
      else
        -- send_audio raised after the artifact was written: the except
        -- branch runs, os.remove does not
        { buffer := buffer, fileOnDisk := true, delivered := false,
          messages := ["Generating audio...", "Error generating audio."] }
    else
      -- generate_audio raised before an artifact was produced
      { buffer := buffer, fileOnDisk := false, delivered := false,
        messages := ["Generating audio...", "Error generating audio."] }

/-! ## Callback handler (`callback_handler`, src/bot.py:236-297) -/

/-- Outcome of one `callback_handler` call: the session on return, the
user-visible messages, whether the handler raised an uncaught exception
(Python `KeyError` on an unknown `VOICE_CATEGORIES` key), and the voice id
passed to `run_generation` when a generate branch ran. -/
structure CbResult where
  session : UserData
  messages : List String
  crashed : Bool
  genVoice : Option String
deriving DecidableEq, Repr

/-- The generate branches of `callback_handler`: delegate to
`run_generation` on the session's buffer. -/
def cbRunGen (s : UserData) (voiceId : String) (synthOk sendOk : Bool) : CbResult :=
  let r := run_generation s.buffer synthOk sendOk
  { session := { s with buffer := r.buffer }, messages := r.messages,
    crashed := false, genVoice := some voiceId }

/-- Python `data.split("_")[1]`, defined on every branch that tests a
`<prefix>_` pattern first (so the list always has a second element). -/
def tokenPayload (dat : String) : String :=
  ⟨((pySplitSub ('_' :: []) dat.data).getD 1 [])⟩

/-- `callback_handler` (src/bot.py:236-297), with the source's branch order:
`clear_data`, `gen_default`, `gen_choose`, `setcat_`, `setvoice_`,
`back_settings`, `pickcat_`, `run_`, and the implicit silent fall-through
when nothing matches.  Menu renders are represented by a fixed message per
branch; `setcat_`/`pickcat_` with a key absent from `VOICE_CATEGORIES`
raise `KeyError` (crash, nothing sent). -/
def callback_handler (s : UserData) (dat : String) (synthOk sendOk : Bool) : CbResult :=
  if dat == "clear_data" then
    { session := { s with buffer := "" }, messages := ["Buffer cleared."],
      crashed := false, genVoice := none }
  else if dat == "gen_default" then
    cbRunGen s (get_user_voice s) synthOk sendOk
  else if dat == "gen_choose" then
    { session := s, messages := ["Select Category:"], crashed := false, genVoice := none }
  else if "setcat_".data.isPrefixOf dat.data then
    match lookupCat (tokenPayload dat) with
    | some _ =>
      { session := s, messages := ["Select default voice:"], crashed := false, genVoice := none }
    | none =>
      { session := s, messages := [], crashed := true, genVoice := none }
  else if "setvoice_".data.isPrefixOf dat.data then
    { session := { s with voice := some (tokenPayload dat) },
      messages := ["Default voice updated!"], crashed := false, genVoice := none }
  else if dat == "back_settings" then
    { session := s, messages := ["Settings"], crashed := false, genVoice := none }
  else if "pickcat_".data.isPrefixOf dat.data then
    match lookupCat (tokenPayload dat) with
    | some _ =>
      { session := s, messages := ["Select voice:"], crashed := false, genVoice := none }
    | none =>
      { session := s, messages := [], crashed := true, genVoice := none }
  else if "run_".data.isPrefixOf dat.data then
    cbRunGen s (tokenPayload dat) synthOk sendOk
  else
    { session := s, messages := [], crashed := false, genVoice := none }

/-- A callback token that matches none of the handler's branches: the
handler body runs off the end of the if-chain and returns `None` silently. -/
def noBranch (dat : String) : Bool :=
  !(dat == "clear_data") && !(dat == "gen_default") && !(dat == "gen_choose") &&
  !("setcat_".data.isPrefixOf dat.data) && !("setvoice_".data.isPrefixOf dat.data) &&
  !(dat == "back_settings") && !("pickcat_".data.isPrefixOf dat.data) &&
  !("run_".data.isPrefixOf dat.data)

/-! ## Timed debounce model (`handle_text_message` + `JobQueue.run_once`)

One session's text fragments arrive at absolute times (any unit).  The
session state carries the accumulated buffer and the expiry time of the
pending `run_once` job, if one is scheduled.  On each arrival: a pending
job whose expiry time has passed already fired (one flush event, recording
the buffer it saw); a still-pending one is cancelled
(`job.schedule_removal()`, src/bot.py:159-161); then the fragment is
appended and a fresh job is scheduled `d` from now.  After the last
arrival the surviving job fires. -/

/-- Debounce state: accumulated buffer and pending job expiry time. -/
structure DebState where
  buffer : String
  pending : Option Nat
deriving DecidableEq, Repr

/-- One fragment arrival; the accumulator collects flush events
`(fire time, buffer seen by the flush)`. -/
def debStep (d : Nat) (acc : List (Nat × String) × DebState) (ev : Nat × String) :
    List (Nat × String) × DebState :=
  let fl :=
    match acc.2.pending with
    | some e => if e ≤ ev.1 then acc.1 ++ [(e, acc.2.buffer)] else acc.1
    | none => acc.1
  (fl, { buffer := acc.2.buffer ++ ev.2 ++ "\n", pending := some (ev.1 + d) })

/-- All flush events of a session that starts empty, receives the given
time-stamped fragments, then goes silent. -/
def debRun (d : Nat) (evs : List (Nat × String)) : List (Nat × String) :=
  let r := evs.foldl (debStep d) ([], { buffer := "", pending := none })
  match r.2.pending with
  | some e => r.1 ++ [(e, r.2.buffer)]
  | none => r.1

/-- Arrival times are in order and each gap is strictly below `d`, relative
to a previous arrival at time `t`. -/
def gapsOK (d : Nat) : Nat → List (Nat × String) → Bool
  | _, [] => true
  | t, e :: rest => (t ≤ e.1 && e.1 < t + d) && gapsOK d e.1 rest

/-- The arrival time of the last fragment, after a first arrival at `t`. -/
def lastTime (t : Nat) : List (Nat × String) → Nat
  | [] => t
  | e :: rest => lastTime e.1 rest

/-- Every successive gap of the arrival sequence is strictly below `d`. -/
def gapsLt (d : Nat) (evs : List (Nat × String)) : Bool :=
  match evs with
  | [] => true
  | e :: rest => gapsOK d e.1 rest

/-! ## The shared temp file of `srt_to_clean_text`

`srt_to_clean_text` writes its input to the FIXED path `"temp.srt"` and
immediately reads it back — the path does not depend on the user, so all
sessions share one slot.  The write and the read are adjacent statements
with no `await` between them, so under the bot's cooperative single-threaded
scheduling the pair executes atomically: no other session's write can land
in between. -/

/-- The fixed temp path of src/bot.py:93. -/
def tempPath : String := "temp.srt"

/-- A flat filesystem: association of path to content, most recent write
first. -/
def fsWrite (fs : List (String × String)) (path content : String) : List (String × String) :=
  (path, content) :: fs

/-- Read a path's current content. -/
def fsRead (fs : List (String × String)) (path : String) : Option String :=
  (fs.find? (fun e => e.1 == path)).map (fun e => e.2)

/-- The temp-file write performed by `srt_to_clean_text` for a given
session buffer: always to `tempPath`, whoever the caller is. -/
def normWrite (fs : List (String × String)) (buffer : String) : List (String × String) :=
  fsWrite fs tempPath buffer

/-- One session's normalisation step — write own buffer to the shared path,
read the path back, parse (the atomic write-then-read pair of
src/bot.py:93-96).  Returns the filesystem afterwards and the normalised
text the caller obtains. -/
def normStep (fs : List (String × String)) (buffer : String) :
    List (String × String) × String :=
  let fs2 := normWrite fs buffer
  (fs2, pysrtJoin ((fsRead fs2 tempPath).getD ""))

/-! ## Helper lemmas -/

theorem isPrefixOf_append_of_isPrefixOf {p l t : List Char} (h : p.isPrefixOf l = true) :
    p.isPrefixOf (l ++ t) = true := by
  induction p generalizing l with
  | nil => simp
  | cons a as ih =>
    cases l with
    | nil => simp [List.isPrefixOf] at h
    | cons b bs =>
      simp only [List.isPrefixOf, Bool.and_eq_true] at h ⊢
      exact ⟨h.1, ih h.2⟩

theorem containsSub_cons {pat : List Char} {c : Char} {l : List Char}
    (h : containsSub pat l = true) : containsSub pat (c :: l) = true := by
  simp only [containsSub, Bool.or_eq_true]
  exact Or.inr h

theorem containsSub_append_left {pat x l : List Char}
    (h : containsSub pat l = true) : containsSub pat (x ++ l) = true := by
  induction x with
  | nil => simpa using h
  | cons c cs ih => exact containsSub_cons ih

theorem containsSub_append_right {pat l y : List Char}
    (h : containsSub pat l = true) : containsSub pat (l ++ y) = true := by
  induction l with
  | nil => simp [containsSub] at h
  | cons c cs ih =>
    simp only [containsSub, Bool.or_eq_true] at h
    simp only [List.cons_append, containsSub, Bool.or_eq_true]
    cases h with
    | inl h =>
      exact Or.inl (by simpa [List.cons_append] using
        isPrefixOf_append_of_isPrefixOf (t := y) h)
    | inr h => exact Or.inr (ih h)

theorem exists_append_dropWhile (p : Char → Bool) (l : List Char) :
    ∃ u, u ++ l.dropWhile p = l := by
  induction l with
  | nil => exact ⟨[], rfl⟩
  | cons c rest ih =>
    by_cases h : p c
    · obtain ⟨u, hu⟩ := ih
      exact ⟨c :: u, by simp [List.dropWhile, h, hu]⟩
    · exact ⟨[], by simp [List.dropWhile, h]⟩

theorem pyRstrip_append_eq (l : List Char) : ∃ t, pyRstrip l ++ t = l := by
  obtain ⟨u, hu⟩ := exists_append_dropWhile pyWs l.reverse
  refine ⟨u.reverse, ?_⟩
  have : (u ++ l.reverse.dropWhile pyWs).reverse = l := by
    rw [hu, List.reverse_reverse]
  simpa [List.reverse_append, pyRstrip] using this

theorem containsSub_pyRstrip_false {pat l : List Char}
    (h : containsSub pat l = false) : containsSub pat (pyRstrip l) = false := by
  obtain ⟨t, ht⟩ := pyRstrip_append_eq l
  by_contra hc
  have hc2 : containsSub pat (pyRstrip l) = true := by
    cases hx : containsSub pat (pyRstrip l) with
    | true => rfl
    | false => exact absurd hx hc
  have := containsSub_append_right (y := t) hc2
  rw [ht] at this
  exact absurd this (by simp [h])

theorem containsSub_tail_false {pat : List Char} {c : Char} {l : List Char}
    (h : containsSub pat (c :: l) = false) : containsSub pat l = false := by
  by_contra hc
  have hc2 : containsSub pat l = true := by
    cases hx : containsSub pat l with
    | true => rfl
    | false => exact absurd hx hc
  have := containsSub_cons (c := c) hc2
  simp [h] at this

theorem containsSub_append_false_left {pat x l : List Char}
    (h : containsSub pat (x ++ l) = false) : containsSub pat l = false := by
  by_contra hc
  have hc2 : containsSub pat l = true := by
    cases hx : containsSub pat l with
    | true => rfl
    | false => exact absurd hx hc
  have := containsSub_append_left (x := x) hc2
  simp [h] at this

theorem containsSub_append_false_right {pat x l : List Char}
    (h : containsSub pat (x ++ l) = false) : containsSub pat x = false := by
  by_contra hc
  have hc2 : containsSub pat x = true := by
    cases hx : containsSub pat x with
    | true => rfl
    | false => exact absurd hx hc
  have := containsSub_append_right (y := l) hc2
  simp [h] at this

theorem splitSubAux_of_not_contains {pat : List Char} :
    ∀ (l acc : List Char), containsSub pat l = false →
      splitSubAux pat 0 acc l = [acc.reverse ++ l] := by
  intro l
  induction l with
  | nil => intro acc _; simp [splitSubAux]
  | cons c rest ih =>
    intro acc h
    simp only [containsSub, Bool.or_eq_false_iff] at h
    simp only [splitSubAux, h.1, Bool.false_eq_true, if_false]
    rw [ih (c :: acc) h.2]
    simp

theorem splitCharAux_pieces {pat : List Char} {p : Char → Bool} :
    ∀ (l acc : List Char), containsSub pat (acc.reverse ++ l) = false →
      ∀ piece ∈ splitCharAux p acc l, containsSub pat piece = false := by
  intro l
  induction l with
  | nil =>
    intro acc h piece hp
    simp only [splitCharAux, List.mem_singleton] at hp
    subst hp
    simpa using h
  | cons c rest ih =>
    intro acc h piece hp
    by_cases hc : p c
    · simp only [splitCharAux, hc, if_true, List.mem_cons] at hp
      cases hp with
      | inl hp =>
        subst hp
        exact containsSub_append_false_right h
      | inr hp =>
        refine ih [] ?_ piece hp
        have h2 : containsSub pat (c :: rest) = false := containsSub_append_false_left h
        simpa using containsSub_tail_false h2
    · simp only [splitCharAux, hc, if_false] at hp
      refine ih (c :: acc) ?_ piece hp
      simpa [List.append_assoc] using h

theorem chunksAux_mem :
    ∀ (ls acc ch : List (List Char)), ch ∈ chunksAux acc ls →
      ∀ l ∈ ch, l ∈ acc ∨ l ∈ ls := by
  intro ls
  induction ls with
  | nil =>
    intro acc ch hch l hl
    by_cases hacc : acc.isEmpty
    · simp [chunksAux, hacc] at hch
    · simp only [chunksAux, hacc, Bool.false_eq_true, if_false, List.mem_singleton] at hch
      subst hch
      exact Or.inl (List.mem_reverse.mp hl)
  | cons x rest ih =>
    intro acc ch hch l hl
    by_cases hx : pyStrip x == []
    · by_cases hacc : acc.isEmpty
      · simp only [chunksAux, hx, if_true, hacc] at hch
        rcases ih [] ch hch l hl with h | h
        · simp at h
        · exact Or.inr (List.mem_cons_of_mem x h)
      · simp only [chunksAux, hx, if_true, hacc, Bool.false_eq_true, if_false,
          List.mem_cons] at hch
        cases hch with
        | inl hch =>
          subst hch
          exact Or.inl (List.mem_reverse.mp hl)
        | inr hch =>
          rcases ih [] ch hch l hl with h | h
          · simp at h
          · exact Or.inr (List.mem_cons_of_mem x h)
    · simp only [chunksAux, hx, Bool.false_eq_true, if_false] at hch
      rcases ih (x :: acc) ch hch l hl with h | h
      · rcases List.mem_cons.mp h with h | h
        · exact Or.inr (h ▸ List.mem_cons_self x rest)
        · exact Or.inl h
      · exact Or.inr (List.mem_cons_of_mem x h)

theorem parseChunk_none_of_no_arrow {ch : List (List Char)}
    (h : ∀ l ∈ ch, containsSub arrowPat l = false) : parseChunk ch = none := by
  by_cases hlen : ch.length < 2
  · simp [parseChunk, hlen]
  · match ch, hlen with
    | [], hlen => exact absurd (by simp) hlen
    | [a], hlen => exact absurd (by simp) hlen
    | a :: b :: tail, hlen =>
      have ha : containsSub arrowPat (pyRstrip a) = false :=
        containsSub_pyRstrip_false (h a (by simp))
      have hb : containsSub arrowPat (pyRstrip b) = false :=
        containsSub_pyRstrip_false (h b (by simp))
      simp only [parseChunk, hlen, if_false, List.map_cons, ha, Bool.false_eq_true,
        if_false, pySplitSub]
      rw [splitSubAux_of_not_contains (pyRstrip b) [] hb]

theorem debRun_aux (d : Nat) :
    ∀ (evs : List (Nat × String)) (t : Nat) (b : String) (fl : List (Nat × String)),
      gapsOK d t evs = true →
      evs.foldl (debStep d) (fl, { buffer := b, pending := some (t + d) }) =
        (fl, { buffer := evs.foldl (fun acc e => acc ++ e.2 ++ "\n") b,
               pending := some (lastTime t evs + d) }) := by
  intro evs
  induction evs with
  | nil => intro t b fl _; rfl
  | cons e rest ih =>
    intro t b fl hg
    simp only [gapsOK, Bool.and_eq_true, decide_eq_true_eq] at hg
    have hstep : debStep d (fl, { buffer := b, pending := some (t + d) }) e =
        (fl, { buffer := b ++ e.2 ++ "\n", pending := some (e.1 + d) }) := by
      simp only [debStep]
      rw [if_neg (by omega)]
    rw [List.foldl_cons, hstep]
    have hg2 : gapsOK d e.1 rest = true := hg.2
    rw [ih e.1 (b ++ e.2 ++ "\n") fl hg2]
    rfl

theorem lastTime_eq_getLast :
    ∀ (evs : List (Nat × String)) (t : Nat) (hne : evs ≠ []),
      lastTime t evs = (evs.getLast hne).1 := by
  intro evs
  induction evs with
  | nil => intro t hne; exact absurd rfl hne
  | cons e rest ih =>
    intro t hne
    cases rest with
    | nil => rfl
    | cons r rest2 =>
      rw [List.getLast_cons (by simp)]
      exact ih t (by simp)


theorem lastTime_cons_getLast (e : Nat × String) (rest : List (Nat × String))
    (hne : e :: rest ≠ []) :
    lastTime e.1 rest = ((e :: rest).getLast hne).1 := by
  cases rest with
  | nil => rfl
  | cons r rest2 =>
    rw [List.getLast_cons (by simp)]
    exact lastTime_eq_getLast (r :: rest2) e.1 (by simp)

/-! ## Claims -/

/-- Claim C1: for every session, if N text fragments arrive with each
successive gap strictly less than the debounce delay, the flush callback
fires exactly once, after the last fragment's delay has elapsed, and the
flushed buffer contains all N fragments in arrival order (each fragment
followed by the `"\n"` separator `handle_text_message` appends). -/
theorem debounce_coalesces_once (d : Nat) (evs : List (Nat × String))
    (hne : evs ≠ []) (hg : gapsLt d evs = true) :
    debRun d evs =
      [((evs.getLast hne).1 + d, evs.foldl (fun acc e => acc ++ e.2 ++ "\n") "")] := by
  cases evs with
  | nil => exact absurd rfl hne
  | cons e rest =>
    have hg2 : gapsOK d e.1 rest = true := by simpa [gapsLt] using hg
    have hfirst : debStep d ([], { buffer := "", pending := none }) e =
        ([], { buffer := "" ++ e.2 ++ "\n", pending := some (e.1 + d) }) := rfl
    simp only [debRun, List.foldl_cons, hfirst]
    rw [debRun_aux d rest e.1 ("" ++ e.2 ++ "\n") [] hg2]
    rw [lastTime_cons_getLast e rest hne]
    rfl

/-- Concrete instance of C1: fragments "a", "b", "c" at times 0, 3, 6 with
delay 10 produce exactly one flush, at time 16, seeing "a\nb\nc\n". -/
theorem debounce_coalesces_once_witness :
    debRun 10 [(0, "a"), (3, "b"), (6, "c")] = [(16, "a\nb\nc\n")] := by
  have h := debounce_coalesces_once 10 [(0, "a"), (3, "b"), (6, "c")]
    (by decide) (by decide)
  rw [h]
  rfl

/-- Claim C2 is false on the code: with a non-empty buffer ("x"), a
successful synthesis and a failing delivery, `run_generation` returns with
the audio artifact still on local storage — `os.remove` sits on the success
path only, and the `except` branch performs no cleanup. -/
theorem artifact_left_on_delivery_failure :
    ¬ (∀ synthOk sendOk : Bool, (run_generation "x" synthOk sendOk).fileOnDisk = false) := by
  intro h
  have := h true false
  simp [run_generation] at this

/-- Claim C2 (amended): the artifact is deleted on the success path; on a
delivery failure after a successful synthesis it remains on disk; on a
synthesis failure no artifact was produced. -/
theorem artifact_cleanup_by_path (b : String) (h : b ≠ "") :
    (run_generation b true true).fileOnDisk = false ∧
    (run_generation b true false).fileOnDisk = true ∧
    (∀ sendOk, (run_generation b false sendOk).fileOnDisk = false) := by
  have hb : (b == "") = false := by
    simpa using h
  refine ⟨?_, ?_, fun sendOk => ?_⟩ <;> simp [run_generation, hb]

/-- Concrete instance of the amended C2 at buffer "x". -/
theorem artifact_cleanup_by_path_witness :
    (run_generation "x" true true).fileOnDisk = false ∧
    (run_generation "x" true false).fileOnDisk = true ∧
    (∀ sendOk, (run_generation "x" false sendOk).fileOnDisk = false) :=
  artifact_cleanup_by_path "x" (by decide)

/-- Claim C3: when the external synthesis collaborator fails
(`generate_audio` raises), `run_generation` leaves the session's text
buffer unchanged — the auto-clear sits after the delivery step in the
try-block — and the user-visible "Error generating audio." message is
reported from the `except` branch. -/
theorem synth_failure_preserves_buffer (b : String) (h : b ≠ "") (sendOk : Bool) :
    (run_generation b false sendOk).buffer = b ∧
    "Error generating audio." ∈ (run_generation b false sendOk).messages := by
  have hb : (b == "") = false := by
    simpa using h
  constructor <;> simp [run_generation, hb]

/-- Concrete instance of C3 at buffer "x". -/
theorem synth_failure_preserves_buffer_witness :
    (run_generation "x" false true).buffer = "x" ∧
    "Error generating audio." ∈ (run_generation "x" false true).messages :=
  synth_failure_preserves_buffer "x" (by decide) true

/-- Claim C5 is false on the code: `clear_buffer` empties the buffer but
does NOT cancel the pending debounce job — `context.user_data['job']` is
never touched by the clear paths, so the timer stays scheduled. -/
theorem clear_leaves_timer_pending :
    (clear_buffer { buffer := "x", job := true, voice := some "en-GB-RyanNeural" }).1 =
      { buffer := "", job := true, voice := some "en-GB-RyanNeural" } ∧
    ¬ ((clear_buffer { buffer := "x", job := true, voice := some "en-GB-RyanNeural" }).1.job
        = false) := by
  constructor <;> decide

/-- Claim C5 (amended): the clear operation (both the `/clear` command and
the `clear_data` callback) resets the buffer to the empty string and leaves
the selected voice — and the scheduled job flag — untouched; it does not
cancel a pending debounce timer, but a timer later firing on the cleared
buffer sends nothing (`process_buffered_text` returns early on a
whitespace-only buffer). -/
theorem clear_buffer_effects (s : UserData) :
    (clear_buffer s).1 = { s with buffer := "" } ∧
    (clear_buffer s).1.voice = s.voice ∧
    (clear_buffer s).1.job = s.job ∧
    (∀ synthOk sendOk,
      (callback_handler s "clear_data" synthOk sendOk).session = { s with buffer := "" }) ∧
    process_buffered_text "" = none := by
  refine ⟨rfl, rfl, rfl, fun synthOk sendOk => rfl, rfl⟩

/-- Claim C6 is false on the code: the input "Hello" contains no
cue-separator marker, yet `srt_to_clean_text` does not return it unchanged —
there is no plain-text fast path; pysrt drops the unparseable chunk and the
join of zero cue texts is the empty string. -/
theorem plain_text_not_unchanged :
    srt_to_clean_text true "Hello" = "" ∧
    ¬ (srt_to_clean_text true "Hello" = "Hello") := by
  constructor <;> decide

/-- Claim C6 (amended): an input containing no occurrence of the
cue-separator marker `-->` is normalised to the EMPTY string, not returned
unchanged: every chunk of such an input lacks a parseable timestamp line,
so pysrt's lenient error handling drops them all. -/
theorem no_arrow_input_yields_empty (content : String)
    (h : containsSub arrowPat content.data = false) :
    srt_to_clean_text true content = "" := by
  have hlines : ∀ l ∈ pySplitChar (fun c => c == '\n') content.data,
      containsSub arrowPat l = false := by
    intro l hl
    exact splitCharAux_pieces content.data [] (by simpa using h) l hl
  have hchunks : ∀ ch ∈ splitChunks (pySplitChar (fun c => c == '\n') content.data),
      parseChunk ch = none := by
    intro ch hch
    refine parseChunk_none_of_no_arrow ?_
    intro l hl
    rcases chunksAux_mem (pySplitChar (fun c => c == '\n') content.data) [] ch hch l hl with
      hmem | hmem
    · simp at hmem
    · exact hlines l hmem
  have hsubs : srtSubTexts content = [] := by
    simp only [srtSubTexts, List.filterMap_eq_nil_iff]
    exact hchunks
  simp only [srt_to_clean_text, if_true, pysrtJoin, hsubs, List.map_nil]
  rfl

/-- Concrete instance of the amended C6 at input "Hello". -/
theorem no_arrow_input_yields_empty_witness :
    srt_to_clean_text true "Hello" = "" :=
  no_arrow_input_yields_empty "Hello" (by decide)

/-- Claim C7 is false on the code in its fallback clause: "Hello\nWorld"
fails cue parsing, but the result is the empty string — the cue is silently
dropped by pysrt's lenient error handling — not the original text with
newlines replaced by spaces. -/
theorem parse_failure_without_fallback :
    srt_to_clean_text true "Hello\nWorld" = "" ∧
    ¬ (srt_to_clean_text true "Hello\nWorld" = "Hello World") := by
  constructor <;> decide

/-- Claim C7 (amended): the normalizer never raises — every exception that
can escape the try-block (an I/O-level failure of the temp-file round trip)
is caught and degrades to the original text with every newline replaced by
a space, a total transformation leaving no newline behind; a cue-level
parse failure, however, does NOT trigger that fallback: the failed cue is
silently dropped, so fully malformed input yields the empty string. -/
theorem normalizer_never_raises_but_drops (c : String) :
    (srt_to_clean_text false c).data = c.data.map (fun ch => if ch == '\n' then ' ' else ch) ∧
    '\n' ∉ (srt_to_clean_text false c).data ∧
    srt_to_clean_text true "Hello\nWorld" = "" := by
  refine ⟨rfl, ?_, by decide⟩
  intro hmem
  simp only [srt_to_clean_text, Bool.false_eq_true, if_false, pyReplaceChar,
    List.mem_map] at hmem
  obtain ⟨a, _, ha⟩ := hmem
  by_cases hc : a == '\n'
  · rw [if_pos hc] at ha
    exact absurd ha (by decide)
  · rw [if_neg hc] at ha
    subst ha
    simp at hc

/-- Claim C8 is false on the code for file uploads: with "old\n" already
buffered, uploading an .srt file with content "new" REPLACES the buffer
(`user_data['buffer'] = text_content`), discarding the previously buffered
text instead of appending. -/
theorem file_upload_discards_buffer :
    (handle_file { buffer := "old\n", job := false, voice := none } "a.srt" "new").1.buffer
      = "new" ∧
    ¬ ((handle_file { buffer := "old\n", job := false, voice := none } "a.srt" "new").1.buffer
      = "old\n" ++ "new" ++ "\n") := by
  constructor <;> decide

/-- Claim C8 (amended): a text fragment is appended — the new buffer is the
old buffer plus the fragment plus the `"\n"` separator, with the 2.0 s
debounce rescheduled; a file upload whose name ends in `.srt` bypasses the
debounce window (0.1 s flush) but REPLACES the buffer with the file content,
discarding previously buffered text; the selected voice is untouched. -/
theorem append_and_file_replace (s : UserData) (t fn c : String)
    (h : ".srt".data.reverse.isPrefixOf (pyLower fn.data).reverse = true) :
    (handle_text_message s t).1.buffer = s.buffer ++ t ++ "\n" ∧
    (handle_text_message s t).2 = TEXT_DEBOUNCE_DS ∧
    (handle_file s fn c).1.buffer = c ∧
    (handle_file s fn c).2 = some FILE_FLUSH_DS ∧
    (handle_file s fn c).1.voice = s.voice := by
  simp at h
  refine ⟨rfl, rfl, ?_, ?_, ?_⟩ <;> simp [handle_file, h]

/-- Concrete instance of the amended C8 at file name "a.srt". -/
theorem append_and_file_replace_witness :
    (handle_text_message { buffer := "old\n" } "x").1.buffer = "old\n" ++ "x" ++ "\n" ∧
    (handle_text_message { buffer := "old\n" } "x").2 = TEXT_DEBOUNCE_DS ∧
    (handle_file { buffer := "old\n" } "a.srt" "new").1.buffer = "new" ∧
    (handle_file { buffer := "old\n" } "a.srt" "new").2 = some FILE_FLUSH_DS ∧
    (handle_file { buffer := "old\n" } "a.srt" "new").1.voice = none :=
  append_and_file_replace { buffer := "old\n" } "x" "a.srt" "new" (by decide)

/-- Claim C9: on the spec's two-cue example input, the normalizer returns
"Hello World". -/
theorem normalizer_two_cue_example :
    srt_to_clean_text true
      "1\n00:00:01,000 --> 00:00:02,000\nHello\n\n2\n00:00:03,000 --> 00:00:04,000\nWorld"
      = "Hello World" := by
  decide

/-- Claim C4 is false on the code: the token "setcat_klingon" carries a
category key absent from the Voice Catalog; `VOICE_CATEGORIES[cat]` raises
an uncaught `KeyError` — the handler crashes and reports no user-visible
error. -/
theorem unknown_category_token_crashes :
    (callback_handler { buffer := "", job := false, voice := none }
        "setcat_klingon" true true).crashed = true ∧
    (callback_handler { buffer := "", job := false, voice := none }
        "setcat_klingon" true true).messages = [] := by
  constructor <;> decide

/-- Claim C4 (amended): an action token matching none of the handled
patterns is ignored silently — no message, no crash, session unchanged
(the user gets no error report); a `setcat_` token with a key absent from
the catalog raises an uncaught `KeyError`; and a `setvoice_` token stores
its payload as the selected voice without validating it against the
catalog, mutating the session. -/
theorem malformed_token_behaviour (s : UserData) (synthOk sendOk : Bool)
    (dat : String) (h : noBranch dat = true) :
    callback_handler s dat synthOk sendOk =
      { session := s, messages := [], crashed := false, genVoice := none } ∧
    (callback_handler s "setcat_klingon" synthOk sendOk).crashed = true ∧
    (callback_handler s "setvoice_zzz" synthOk sendOk).session =
      { s with voice := some "zzz" } := by
  refine ⟨?_, rfl, rfl⟩
  simp only [noBranch, Bool.and_eq_true, Bool.not_eq_true'] at h
  obtain ⟨⟨⟨⟨⟨⟨⟨h1, h2⟩, h3⟩, h4⟩, h5⟩, h6⟩, h7⟩, h8⟩ := h
  simp only [callback_handler, h1, h2, h3, h4, h5, h6, h7, h8, Bool.false_eq_true,
    if_false]

/-- Concrete instance of the amended C4 at the unmatched token "hello". -/
theorem malformed_token_behaviour_witness :
    callback_handler { buffer := "b", job := false, voice := none } "hello" true true =
      { session := { buffer := "b", job := false, voice := none },
        messages := [], crashed := false, genVoice := none } :=
  (malformed_token_behaviour { buffer := "b", job := false, voice := none }
    true true "hello" (by decide)).1

/-- Claim C10 is false in its derivation clause: even in the adversarial
interleaving where user B's buffer has just been written to the shared
"temp.srt" slot, user A's normalisation step still yields the text of A's
OWN buffer — the write and the read are adjacent with no suspension point
in between. -/
theorem no_cross_user_derivation :
    (normStep (normWrite [] "00:00:01,000 --> 00:00:02,000\nWorld")
        "00:00:01,000 --> 00:00:02,000\nHello").2 = "Hello" ∧
    pysrtJoin "00:00:01,000 --> 00:00:02,000\nWorld" = "World" ∧
    ¬ ("Hello" = "World") := by
  refine ⟨by decide, by decide, by decide⟩

/-- Claim C10 (amended): every generation request's normalisation writes
the caller's buffer to the single fixed path `tempPath` = "temp.srt",
independent of the user — so the slot is shared and each write overwrites
the previous user's content — but because the write and the read back are
adjacent statements with no intervening suspension point, the normalised
text each caller obtains is a function of the caller's own buffer alone;
no cross-user derivation occurs under cooperative scheduling. -/
theorem shared_temp_path_atomic_normalize (fs : List (String × String)) (b : String) :
    (normStep fs b).1 = fsWrite fs tempPath b ∧
    fsRead (normStep fs b).1 tempPath = some b ∧
    (normStep fs b).2 = pysrtJoin b := by
  refine ⟨rfl, ?_, ?_⟩
  · simp [normStep, normWrite, fsWrite, fsRead]
  · simp [normStep, normWrite, fsWrite, fsRead]
